import Mathlib

/-!
Verification of the wuweiqi core: rule catalog, rule selector, legality
checker, hint generator (src/unnamed/part_002) and the turn/placement state
machine (src/unnamed/part_000, with src/src/components/Game.jsx as a second
variant of the same transition).

Modelling conventions:
- The board is the JS array-of-arrays: a list of rows, each a list of cells,
  a cell being `none` (null) or `some orientation` (the stone object).
- JS numbers used as coordinates / orientations are `Nat`; stone counters are
  `Int` (they are decremented, and JS numbers are signed).
- The unseeded random draws of `selectRules` and `getHint` are passed in
  explicitly: one `Attempt` per loop iteration of `selectRules` (the drawn
  rule count and the shuffled catalog), and the two index draws of `getHint`.
- Out-of-range indexing, which in JS yields `undefined` and then a crash,
  is modelled by `Option` (`none` = no defined result).
-/

def BOARD_SIZE : Nat := 9

/-- A cell of the board: `none` for null, `some o` for a stone object whose
orientation field is `o`. -/
abbrev Cell := Option Nat

/-- The board as in the source: an array of rows of cells. -/
abbrev BoardState := List (List Cell)

/-- Read `board[row][col]`; `none` when out of range (all source accesses are
guarded in range). -/
def boardCell (board : BoardState) (row col : Nat) : Cell :=
  ((board.get? row).bind fun cells => cells.get? col).getD none

/-- Map with the element index, as `Array.prototype.map((x, i) => ...)` does;
`i` is the index of the first element. -/
def jsMapIdxFrom (f : Nat → α → β) : Nat → List α → List β
  | _, [] => []
  | i, a :: rest => f i a :: jsMapIdxFrom f (i + 1) rest

/-- Map with the element index starting at 0. -/
def jsMapIdx (f : Nat → α → β) (l : List α) : List β :=
  jsMapIdxFrom f 0 l

/-- Helper `isEdge` of the rule engine. -/
def isEdge (row col : Nat) : Bool :=
  row == 0 || row == 8 || col == 0 || col == 8

/-- Helper `isCorner` of the rule engine. -/
def isCorner (row col : Nat) : Bool :=
  (row == 0 || row == 8) && (col == 0 || col == 8)

/-- Helper `getDistance` (Manhattan distance) of the rule engine. -/
def getDistance (r1 c1 r2 c2 : Nat) : Nat :=
  ((r1 : Int) - (r2 : Int)).natAbs + ((c1 : Int) - (c2 : Int)).natAbs

/-- Helper `getNeighbors`: the in-range orthogonal neighbours, in the push
order of the source. -/
def getNeighbors (row col : Nat) : List (Nat × Nat) :=
  (if 0 < row then [(row - 1, col)] else []) ++
  (if row < 8 then [(row + 1, col)] else []) ++
  (if 0 < col then [(row, col - 1)] else []) ++
  (if col < 8 then [(row, col + 1)] else [])

/-- Helper `getDiagonalNeighbors`: the in-range diagonal neighbours. -/
def getDiagonalNeighbors (row col : Nat) : List (Nat × Nat) :=
  (if 0 < row ∧ 0 < col then [(row - 1, col - 1)] else []) ++
  (if 0 < row ∧ col < 8 then [(row - 1, col + 1)] else []) ++
  (if row < 8 ∧ 0 < col then [(row + 1, col - 1)] else []) ++
  (if row < 8 ∧ col < 8 then [(row + 1, col + 1)] else [])

/-- A rule of the catalog: `check` returns `true` when the placement is
ILLEGAL. -/
structure Rule where
  id : String
  name : String
  description : String
  check : Nat → Nat → Nat → BoardState → Bool
  weight : ℚ
  dynamic : Bool

def ruleEvenRow : Rule :=
  ⟨"even_row", "Even Row Forbidden", "Stones in even-numbered rows are illegal",
    fun row _ _ _ => row % 2 == 0, 1, false⟩

def ruleOddRow : Rule :=
  ⟨"odd_row", "Odd Row Forbidden", "Stones in odd-numbered rows are illegal",
    fun row _ _ _ => row % 2 == 1, 1, false⟩

def ruleEvenCol : Rule :=
  ⟨"even_col", "Even Column Forbidden", "Stones in even-numbered columns are illegal",
    fun _ col _ _ => col % 2 == 0, 1, false⟩

def ruleOddCol : Rule :=
  ⟨"odd_col", "Odd Column Forbidden", "Stones in odd-numbered columns are illegal",
    fun _ col _ _ => col % 2 == 1, 1, false⟩

def ruleEdgeForbidden : Rule :=
  ⟨"edge_forbidden", "Edge Forbidden", "Stones on the edge are illegal",
    fun row col _ _ => isEdge row col, 1, false⟩

def ruleCenterForbidden : Rule :=
  ⟨"center_forbidden", "Center Forbidden", "Stones not on the edge are illegal",
    fun row col _ _ => !isEdge row col, 1, false⟩

def ruleCornerForbidden : Rule :=
  ⟨"corner_forbidden", "Corner Forbidden", "Stones in corners are illegal",
    fun row col _ _ => isCorner row col, (3 : ℚ) / 10, false⟩

def ruleTopHalf : Rule :=
  ⟨"top_half", "Top Half Forbidden", "Stones in top half (rows 0-3) are illegal",
    fun row _ _ _ => decide (row ≤ 3), 1, false⟩

def ruleBottomHalf : Rule :=
  ⟨"bottom_half", "Bottom Half Forbidden", "Stones in bottom half (rows 5-8) are illegal",
    fun row _ _ _ => decide (5 ≤ row), 1, false⟩

def ruleLeftHalf : Rule :=
  ⟨"left_half", "Left Half Forbidden", "Stones in left half (cols 0-3) are illegal",
    fun _ col _ _ => decide (col ≤ 3), 1, false⟩

def ruleRightHalf : Rule :=
  ⟨"right_half", "Right Half Forbidden", "Stones in right half (cols 5-8) are illegal",
    fun _ col _ _ => decide (5 ≤ col), 1, false⟩

def ruleMainDiagonal : Rule :=
  ⟨"main_diagonal", "Main Diagonal Forbidden", "Stones on the main diagonal (row=col) are illegal",
    fun row col _ _ => row == col, (3 : ℚ) / 10, false⟩

def ruleAntiDiagonal : Rule :=
  ⟨"anti_diagonal", "Anti-Diagonal Forbidden", "Stones on the anti-diagonal (row+col=8) are illegal",
    fun row col _ _ => row + col == 8, (3 : ℚ) / 10, false⟩

def ruleNorthForbidden : Rule :=
  ⟨"north_forbidden", "North Forbidden", "Yin-yang pointing North is illegal",
    fun _ _ orientation _ => orientation == 0, (4 : ℚ) / 5, false⟩

def ruleEastForbidden : Rule :=
  ⟨"east_forbidden", "East Forbidden", "Yin-yang pointing East is illegal",
    fun _ _ orientation _ => orientation == 1, (4 : ℚ) / 5, false⟩

def ruleSouthForbidden : Rule :=
  ⟨"south_forbidden", "South Forbidden", "Yin-yang pointing South is illegal",
    fun _ _ orientation _ => orientation == 2, (4 : ℚ) / 5, false⟩

def ruleWestForbidden : Rule :=
  ⟨"west_forbidden", "West Forbidden", "Yin-yang pointing West is illegal",
    fun _ _ orientation _ => orientation == 3, (4 : ℚ) / 5, false⟩

def ruleAdjacentForbidden : Rule :=
  ⟨"adjacent_forbidden", "Adjacent Forbidden", "Stones adjacent to other stones are illegal",
    fun row col _ board =>
      (getNeighbors row col).any fun p => (boardCell board p.1 p.2).isSome,
    (7 : ℚ) / 10, true⟩

def ruleIsolatedForbidden : Rule :=
  ⟨"isolated_forbidden", "Isolation Forbidden",
    "Stones NOT adjacent to other stones are illegal (after first)",
    fun row col _ board =>
      (board.any fun cells => cells.any fun cell => cell.isSome) &&
      !((getNeighbors row col).any fun p => (boardCell board p.1 p.2).isSome),
    (7 : ℚ) / 10, true⟩

def ruleDiagonalNeighborForbidden : Rule :=
  ⟨"diagonal_neighbor_forbidden", "Diagonal Neighbor Forbidden",
    "Stones diagonally adjacent to other stones are illegal",
    fun row col _ board =>
      (getDiagonalNeighbors row col).any fun p => (boardCell board p.1 p.2).isSome,
    (3 : ℚ) / 5, true⟩

def ruleSumEven : Rule :=
  ⟨"sum_even", "Even Sum Forbidden", "Positions where row+col is even are illegal",
    fun row col _ _ => (row + col) % 2 == 0, 1, false⟩

def ruleSumOdd : Rule :=
  ⟨"sum_odd", "Odd Sum Forbidden", "Positions where row+col is odd are illegal",
    fun row col _ _ => (row + col) % 2 == 1, 1, false⟩

def ruleProductEven : Rule :=
  ⟨"product_even", "Even Product Forbidden", "Positions where row*col is even are illegal",
    fun row col _ _ => (row * col) % 2 == 0, 1, false⟩

def starPoints : List (Nat × Nat) :=
  [(2, 2), (2, 4), (2, 6), (4, 2), (4, 4), (4, 6), (6, 2), (6, 4), (6, 6)]

def ruleStarPoints : Rule :=
  ⟨"star_points", "Star Points Forbidden",
    "Traditional Go star points (3,3), (3,6), etc. are illegal",
    fun row col _ _ => starPoints.any fun p => p.1 == row && p.2 == col,
    (3 : ℚ) / 10, false⟩

def ruleCenterPoint : Rule :=
  ⟨"center_point", "Center Point Forbidden", "The center point (4,4) is illegal",
    fun row col _ _ => row == 4 && col == 4, (1 : ℚ) / 10, false⟩

def ruleNearCenter : Rule :=
  ⟨"near_center", "Near Center Forbidden", "Stones within 2 steps of center are illegal",
    fun row col _ _ => decide (getDistance row col 4 4 ≤ 2), (1 : ℚ) / 2, false⟩

def ruleFarFromCenter : Rule :=
  ⟨"far_from_center", "Far From Center Forbidden",
    "Stones more than 3 steps from center are illegal",
    fun row col _ _ => decide (3 < getDistance row col 4 4), (3 : ℚ) / 5, false⟩

def ruleMiddleRow : Rule :=
  ⟨"middle_row", "Middle Row Forbidden", "Row 4 (the middle) is illegal",
    fun row _ _ _ => row == 4, (3 : ℚ) / 10, false⟩

def ruleMiddleCol : Rule :=
  ⟨"middle_col", "Middle Column Forbidden", "Column 4 (the middle) is illegal",
    fun _ col _ _ => col == 4, (3 : ℚ) / 10, false⟩

def ruleNorthInNorth : Rule :=
  ⟨"north_in_north", "North in North Forbidden", "North-pointing stones in top half are illegal",
    fun row _ orientation _ => orientation == 0 && decide (row ≤ 3), (2 : ℚ) / 5, false⟩

def ruleEastOnEast : Rule :=
  ⟨"east_on_east", "East on East Forbidden", "East-pointing stones in right half are illegal",
    fun _ col orientation _ => orientation == 1 && decide (5 ≤ col), (2 : ℚ) / 5, false⟩

def ruleEdgeOrientation : Rule :=
  ⟨"edge_orientation", "Edge Orientation Forbidden", "Stones on edge must not point outward",
    fun row col orientation _ =>
      (row == 0 && orientation == 0) || (row == 8 && orientation == 2) ||
      (col == 0 && orientation == 3) || (col == 8 && orientation == 1),
    (3 : ℚ) / 10, false⟩

/-- The full rule catalog, in source order. -/
def ALL_RULES : List Rule :=
  [ruleEvenRow, ruleOddRow, ruleEvenCol, ruleOddCol,
   ruleEdgeForbidden, ruleCenterForbidden, ruleCornerForbidden,
   ruleTopHalf, ruleBottomHalf, ruleLeftHalf, ruleRightHalf,
   ruleMainDiagonal, ruleAntiDiagonal,
   ruleNorthForbidden, ruleEastForbidden, ruleSouthForbidden, ruleWestForbidden,
   ruleAdjacentForbidden, ruleIsolatedForbidden, ruleDiagonalNeighborForbidden,
   ruleSumEven, ruleSumOdd, ruleProductEven,
   ruleStarPoints, ruleCenterPoint,
   ruleNearCenter, ruleFarFromCenter,
   ruleMiddleRow, ruleMiddleCol,
   ruleNorthInNorth, ruleEastOnEast, ruleEdgeOrientation]

/-- The declared contradictory pairs (`getIncompatiblePairs` in the source). -/
def getIncompatiblePairs : List (List String) :=
  [["even_row", "odd_row"],
   ["even_col", "odd_col"],
   ["edge_forbidden", "center_forbidden"],
   ["top_half", "bottom_half"],
   ["left_half", "right_half"],
   ["adjacent_forbidden", "isolated_forbidden"],
   ["sum_even", "sum_odd"],
   ["near_center", "far_from_center"]]

/-- The empty 9x9 board allocated by `calculateLegalPercentage` (and by
`createEmptyBoard` of the game component). -/
def createEmptyBoard : BoardState :=
  List.replicate BOARD_SIZE (List.replicate BOARD_SIZE none)

/-- One cell of the inner loop of `calculateLegalPercentage`: the cell counts
as legal when at least one of the 4 orientations is flagged illegal by no
rule (the source breaks out of the orientation loop at the first success). -/
def cellHasLegalOrientation (rules : List Rule) (row col : Nat) : Bool :=
  (List.range 4).any fun orientation =>
    !(rules.any fun rule => rule.check row col orientation createEmptyBoard)

/-- The `legalCount` accumulated by the loops of `calculateLegalPercentage`. -/
def legalCellCount (rules : List Rule) : Nat :=
  ((List.range BOARD_SIZE).map fun row =>
    ((List.range BOARD_SIZE).filter fun col => cellHasLegalOrientation rules row col).length).sum

/-- `calculateLegalPercentage`: fraction of the 81 cells with a legal
orientation on an empty board. -/
def calculateLegalPercentage (rules : List Rule) : ℚ :=
  (legalCellCount rules : ℚ) / ((BOARD_SIZE : ℚ) * (BOARD_SIZE : ℚ))

/-- The compatibility test inside the selection loop of `selectRules`. -/
def ruleCompatible (incompatible : List (List String)) (selected : List Rule)
    (rule : Rule) : Bool :=
  !(selected.any fun existingRule =>
      incompatible.any fun pair => pair.contains rule.id && pair.contains existingRule.id)

/-- The greedy inner loop of `selectRules`: walk the shuffled catalog, stop
once `numRules` rules are gathered, skip rules incompatible with an already
selected one. -/
def selectLoop (incompatible : List (List String)) (numRules : Nat) :
    List Rule → List Rule → List Rule
  | [], selected => selected
  | rule :: rest, selected =>
    if numRules ≤ selected.length then selected
    else if ruleCompatible incompatible selected rule then
      selectLoop incompatible numRules rest (selected ++ [rule])
    else
      selectLoop incompatible numRules rest selected

/-- The random draws of one iteration of `selectRules`: the drawn rule count
(`Math.floor(Math.random() * 4) + 1`) and the shuffled catalog. -/
structure Attempt where
  numRules : Nat
  shuffled : List Rule

/-- The candidate rule set built by one iteration of `selectRules`. -/
def buildCandidate (attempt : Attempt) : List Rule :=
  selectLoop getIncompatiblePairs attempt.numRules attempt.shuffled []

/-- The deterministic fallback of `selectRules`:
`[ALL_RULES.find(r => r.id === 'sum_even')]`. -/
def fallbackRules : List Rule :=
  match ALL_RULES.find? (fun r => r.id == "sum_even") with
  | some r => [r]
  | none => []

/-- `selectRules` with its random draws made explicit: one `Attempt` per loop
iteration, at most `maxAttempts` of them; when every attempt misses the
coverage band the fallback is returned. -/
def selectRules (attempts : List Attempt) (targetMin targetMax : ℚ) : List Rule :=
  match attempts with
  | [] => fallbackRules
  | attempt :: rest =>
    let selected := buildCandidate attempt
    let legalPct := calculateLegalPercentage selected
    if targetMin ≤ legalPct ∧ legalPct ≤ targetMax then selected
    else selectRules rest targetMin targetMax

/-- `isMoveLegal`: a move is legal iff no rule of the active set flags it. -/
def isMoveLegal (row col orientation : Nat) (rules : List Rule) (board : BoardState) : Bool :=
  !(rules.any fun rule => rule.check row col orientation board)

/-- The level-2 category hint of `getHint`, classified from the rule id. -/
def categoryHint (rule : Rule) : String :=
  if rule.id.containsSubstr "row" then "Rows have meaning..."
  else if rule.id.containsSubstr "col" then "Columns have meaning..."
  else if rule.id.containsSubstr "orientation" || rule.id.containsSubstr "north" ||
      rule.id.containsSubstr "south" || rule.id.containsSubstr "east" ||
      rule.id.containsSubstr "west" then "Which way do you face?"
  else if rule.id.containsSubstr "adjacent" || rule.id.containsSubstr "neighbor" then
    "Mind your neighbors..."
  else if rule.id.containsSubstr "edge" then "Boundaries matter..."
  else "The pattern is there, look deeper..."

/-- The `hints` object of `getHint`, indexed by the clamped level; an index
other than 1, 2, 3 yields `undefined` (`none`). The source replaces the first
occurrences of "illegal" and "are"; every catalog description contains each
word at most once, so replacing all occurrences agrees with it on the
catalog. -/
def hintPool (rule : Rule) (level : Int) : Option (List String) :=
  if level = 1 then
    some ["Consider the geometry of your position...",
          "The orientation may matter...",
          "Numbers hold secrets...",
          "Neighbors can be friends or foes...",
          "The center is not always the answer..."]
  else if level = 2 then some [categoryHint rule]
  else if level = 3 then
    some [(rule.description.replace "illegal" "significant").replace "are" "might be"]
  else none

/-- `getHint` with its two random draws made explicit: `ruleDraw` indexes the
rule set, `hintDraw` indexes the level pool. `none` models the crash on an
undefined pool (level below the valid range) or an out-of-range draw. -/
def getHint (rules : List Rule) (hintLevel : Int) (ruleDraw hintDraw : Nat) : Option String :=
  if rules.length = 0 then some "There are no restrictions."
  else
    match rules.get? ruleDraw with
    | none => none
    | some rule =>
      match hintPool rule (min hintLevel 3) with
      | none => none
      | some levelHints => levelHints.get? hintDraw

/-- Game modes of the component (`mode` is "solo" or "duel"). -/
inductive Mode
  | solo
  | duel
  deriving DecidableEq

/-- A move record appended to the move history (the wall-clock timestamp is
omitted). -/
structure Move where
  row : Nat
  col : Nat
  orientation : Nat
  player : Nat
  legal : Bool

/-- The game state held by the component (src/unnamed/part_000): the
presentation-only fields (pending placement, rotation animation, failed-move
overlay, hint display) are outside the core and omitted. -/
structure GameState where
  mode : Mode
  board : BoardState
  rules : List Rule
  currentPlayer : Nat
  player1Stones : Int
  player2Stones : Int
  player1Moves : Nat
  player2Moves : Nat
  gameOver : Bool
  winner : Option Nat
  moveHistory : List Move

def SOLO_STONES : Int := 13

def DUEL_STONES : Int := 9

/-- `initialStones` of the component: per-mode starting stone count. -/
def initialStones : Mode → Int
  | Mode.solo => SOLO_STONES
  | Mode.duel => DUEL_STONES

/-- The state created at game start (and by `resetGame`), with the rule set
produced by the selector passed in. -/
def initialState (mode : Mode) (rules : List Rule) : GameState :=
  { mode := mode
    board := createEmptyBoard
    rules := rules
    currentPlayer := 1
    player1Stones := initialStones mode
    player2Stones := initialStones mode
    player1Moves := 0
    player2Moves := 0
    gameOver := false
    winner := none
    moveHistory := [] }

/-- `getCurrentStones` of the component. -/
def getCurrentStones (s : GameState) : Int :=
  if s.currentPlayer = 1 then s.player1Stones else s.player2Stones

/-- The updater passed to `setCurrentPlayer`. -/
def switchPlayer (p : Nat) : Nat :=
  if p = 1 then 2 else 1

/-- The copy-on-write board update of the legal branch:
`board.map((r, ri) => r.map((c, ci) => ri === row && ci === col ? {orientation} : c))`. -/
def placeStone (board : BoardState) (row col orientation : Nat) : BoardState :=
  jsMapIdx (fun ri cells =>
    jsMapIdx (fun ci cell => if ri = row ∧ ci = col then some orientation else cell) cells) board

/-- The body of `confirmPlacement`: every read refers to the pre-call state
(in the source all reads are of the render-time values captured by the
closure; in particular the `!gameOver` of the duel switch reads the OLD
`gameOver`, not the value just set by the win check). -/
def confirmPlacement (s : GameState) (row col orientation : Nat) : GameState :=
  let legal := isMoveLegal row col orientation s.rules s.board
  let move : Move :=
    { row := row, col := col, orientation := orientation,
      player := s.currentPlayer, legal := legal }
  let history := s.moveHistory ++ [move]
  if legal then
    if s.currentPlayer = 1 then
      let newStones := s.player1Stones - 1
      { s with
        moveHistory := history
        board := placeStone s.board row col orientation
        player1Stones := newStones
        player1Moves := s.player1Moves + 1
        gameOver := if newStones = 0 then true else s.gameOver
        winner := if newStones = 0 then some 1 else s.winner
        currentPlayer :=
          if s.mode = Mode.duel ∧ s.gameOver = false then switchPlayer s.currentPlayer
          else s.currentPlayer }
    else
      let newStones := s.player2Stones - 1
      { s with
        moveHistory := history
        board := placeStone s.board row col orientation
        player2Stones := newStones
        player2Moves := s.player2Moves + 1
        gameOver := if newStones = 0 then true else s.gameOver
        winner := if newStones = 0 then some 2 else s.winner
        currentPlayer :=
          if s.mode = Mode.duel ∧ s.gameOver = false then switchPlayer s.currentPlayer
          else s.currentPlayer }
  else
    { s with
      moveHistory := history
      player1Moves := if s.currentPlayer = 1 then s.player1Moves + 1 else s.player1Moves
      player2Moves := if s.currentPlayer = 1 then s.player2Moves else s.player2Moves + 1
      currentPlayer :=
        if s.mode = Mode.duel then switchPlayer s.currentPlayer else s.currentPlayer }

/-- A full confirmed placement attempt: the fail-fast preconditions of
`handleCellClick` (game over, cell occupied, no stones left) followed by
`confirmPlacement`; a failed precondition leaves the state untouched. -/
def attemptPlacement (s : GameState) (row col orientation : Nat) : GameState :=
  if s.gameOver then s
  else if (boardCell s.board row col).isSome then s
  else if getCurrentStones s ≤ 0 then s
  else confirmPlacement s row col orientation

/-- States reachable from a fresh game through confirmed placement attempts. -/
inductive Reachable : GameState → Prop
  | init (mode : Mode) (rules : List Rule) : Reachable (initialState mode rules)
  | step (s : GameState) (row col orientation : Nat) :
      Reachable s → Reachable (attemptPlacement s row col orientation)

/-- C8: `isMoveLegal` returns false iff at least one rule predicate of the
active set returns true on the inputs; otherwise it returns true. -/
theorem isMoveLegal_false_iff_some_rule_fires
    (row col orientation : Nat) (rules : List Rule) (board : BoardState) :
    (isMoveLegal row col orientation rules board = false ↔
      ∃ rule ∈ rules, rule.check row col orientation board = true) ∧
    (isMoveLegal row col orientation rules board = true ↔
      ¬∃ rule ∈ rules, rule.check row col orientation board = true) := by
  constructor
  · simp [isMoveLegal, List.any_eq_true]
  · simp [isMoveLegal, List.any_eq_true]

/-- C10: on an empty rule set `getHint` returns exactly
"There are no restrictions.", for every level and every random draw. -/
theorem getHint_empty_rules (hintLevel : Int) (ruleDraw hintDraw : Nat) :
    getHint [] hintLevel ruleDraw hintDraw = some "There are no restrictions." := rfl

/-- C9 counterexample: level 0 is out of range, yet `getHint` does not behave
as for level 3 there: the `hints` object has no key 0, so the lookup is
undefined (the call crashes) instead of producing the level-3 hint. -/
theorem getHint_level_zero_ne_level_three :
    getHint fallbackRules 0 0 0 ≠ getHint fallbackRules 3 0 0 := by
  have h0 : getHint fallbackRules 0 0 0 = none := rfl
  have h3 : getHint fallbackRules 3 0 0 =
      some ((ruleSumEven.description.replace "illegal" "significant").replace
        "are" "might be") := rfl
  rw [h0, h3]
  exact fun heq => Option.noConfusion heq

/-- C9 (amended): for every rule set and every hint level of at least 3 -
in particular every request above the valid range - `getHint` behaves
identically (given the same random draws) to a level-3 request. -/
theorem getHint_clamps_levels_above_three (rules : List Rule) (hintLevel : Int)
    (ruleDraw hintDraw : Nat) (h : 3 ≤ hintLevel) :
    getHint rules hintLevel ruleDraw hintDraw = getHint rules 3 ruleDraw hintDraw := by
  have hmin : min hintLevel 3 = 3 := min_eq_right h
  have hmin3 : min (3 : Int) 3 = 3 := min_self 3
  simp only [getHint, hmin, hmin3]

theorem getHint_clamps_levels_above_three_witness :
    (3 : Int) ≤ 5 ∧ getHint fallbackRules 5 0 0 = getHint fallbackRules 3 0 0 :=
  ⟨by decide, getHint_clamps_levels_above_three fallbackRules 5 0 0 (by decide)⟩

/-- C1: every rule set returned by `selectRules` either has legal coverage on
the empty board inside `[targetMin, targetMax]`, or is the fallback set
holding exactly the single sum_even rule. -/
theorem selectRules_coverage_in_band_or_fallback
    (attempts : List Attempt) (targetMin targetMax : ℚ) :
    (targetMin ≤ calculateLegalPercentage (selectRules attempts targetMin targetMax) ∧
      calculateLegalPercentage (selectRules attempts targetMin targetMax) ≤ targetMax) ∨
    selectRules attempts targetMin targetMax = [ruleSumEven] := by
  induction attempts with
  | nil => exact Or.inr rfl
  | cons attempt rest ih =>
    simp only [selectRules]
    split_ifs with h
    · exact Or.inl h
    · exact ih

/-- C7: `selectRules` consumes at most the given attempts (one per loop
iteration, capped by `maxAttempts`) and, when every attempt builds a
candidate outside the coverage band, returns the deterministic fallback set,
so rule selection always terminates with a usable rule set. -/
theorem selectRules_fallback_when_every_attempt_misses
    (attempts : List Attempt) (targetMin targetMax : ℚ)
    (h : ∀ attempt ∈ attempts,
      ¬(targetMin ≤ calculateLegalPercentage (buildCandidate attempt) ∧
        calculateLegalPercentage (buildCandidate attempt) ≤ targetMax)) :
    selectRules attempts targetMin targetMax = fallbackRules := by
  induction attempts with
  | nil => rfl
  | cons attempt rest ih =>
    simp only [selectRules]
    rw [if_neg (h attempt (List.mem_cons_self attempt rest))]
    exact ih fun a ha => h a (List.mem_cons_of_mem attempt ha)

theorem selectRules_fallback_when_every_attempt_misses_witness :
    (∀ attempt ∈ [Attempt.mk 2 []],
      ¬((1 : ℚ) / 4 ≤ calculateLegalPercentage (buildCandidate attempt) ∧
        calculateLegalPercentage (buildCandidate attempt) ≤ (1 : ℚ) / 2)) ∧
    selectRules [Attempt.mk 2 []] ((1 : ℚ) / 4) ((1 : ℚ) / 2) = fallbackRules := by
  have hb : buildCandidate (Attempt.mk 2 []) = [] := rfl
  have h81 : legalCellCount [] = 81 := rfl
  have hpct : calculateLegalPercentage [] = 1 := by
    simp only [calculateLegalPercentage, h81, BOARD_SIZE]
    norm_num
  have hmiss : ∀ attempt ∈ [Attempt.mk 2 []],
      ¬((1 : ℚ) / 4 ≤ calculateLegalPercentage (buildCandidate attempt) ∧
        calculateLegalPercentage (buildCandidate attempt) ≤ (1 : ℚ) / 2) := by
    intro attempt ha
    have heq : attempt = Attempt.mk 2 [] := by simpa using ha
    subst heq
    rw [hb, hpct]
    norm_num
  exact ⟨hmiss,
    selectRules_fallback_when_every_attempt_misses [Attempt.mk 2 []]
      ((1 : ℚ) / 4) ((1 : ℚ) / 2) hmiss⟩

/-- No two rules of the set have distinct ids lying in the same declared
contradictory pair. -/
def PairSafe (incompatible : List (List String)) (rules : List Rule) : Prop :=
  ∀ pair ∈ incompatible, ∀ r1 ∈ rules, ∀ r2 ∈ rules,
    pair.contains r1.id = true → pair.contains r2.id = true → r1.id = r2.id

lemma ruleCompatible_spec {incompatible : List (List String)} {selected : List Rule}
    {rule : Rule} (h : ruleCompatible incompatible selected rule = true) :
    ∀ existingRule ∈ selected, ∀ pair ∈ incompatible,
      ¬(pair.contains rule.id = true ∧ pair.contains existingRule.id = true) := by
  intro existingRule hex pair hpair hcon
  simp only [ruleCompatible, Bool.not_eq_true', List.any_eq_false] at h
  have h2 := h existingRule hex
  rw [List.any_eq_true] at h2
  have hc1 : rule.id ∈ pair := by simpa using hcon.1
  have hc2 : existingRule.id ∈ pair := by simpa using hcon.2
  exact h2 ⟨pair, hpair, by simpa using And.intro hc1 hc2⟩

lemma pairSafe_append {incompatible : List (List String)} {selected : List Rule}
    {rule : Rule} (hsafe : PairSafe incompatible selected)
    (hcompat : ruleCompatible incompatible selected rule = true) :
    PairSafe incompatible (selected ++ [rule]) := by
  intro pair hpair r1 hr1 r2 hr2 h1 h2
  rcases List.mem_append.mp hr1 with hr1s | hr1n
  · rcases List.mem_append.mp hr2 with hr2s | hr2n
    · exact hsafe pair hpair r1 hr1s r2 hr2s h1 h2
    · have hr2e : r2 = rule := by simpa using hr2n
      rw [hr2e] at h2
      exact absurd ⟨h2, h1⟩ (ruleCompatible_spec hcompat r1 hr1s pair hpair)
  · have hr1e : r1 = rule := by simpa using hr1n
    rcases List.mem_append.mp hr2 with hr2s | hr2n
    · rw [hr1e] at h1
      exact absurd ⟨h1, h2⟩ (ruleCompatible_spec hcompat r2 hr2s pair hpair)
    · have hr2e : r2 = rule := by simpa using hr2n
      rw [hr1e, hr2e]

lemma selectLoop_pairSafe (incompatible : List (List String)) (numRules : Nat) :
    ∀ (shuffled selected : List Rule), PairSafe incompatible selected →
      PairSafe incompatible (selectLoop incompatible numRules shuffled selected) := by
  intro shuffled
  induction shuffled with
  | nil => intro selected h; simpa [selectLoop] using h
  | cons rule rest ih =>
    intro selected h
    rw [selectLoop]
    split_ifs with hlen hcompat
    · exact h
    · exact ih (selected ++ [rule]) (pairSafe_append h hcompat)
    · exact ih selected h

lemma pairSafe_nil (incompatible : List (List String)) : PairSafe incompatible [] := by
  intro pair _ r1 hr1
  exact absurd hr1 (List.not_mem_nil r1)

lemma pairSafe_singleton (incompatible : List (List String)) (rule : Rule) :
    PairSafe incompatible [rule] := by
  intro pair _ r1 hr1 r2 hr2 _ _
  have h1 : r1 = rule := by simpa using hr1
  have h2 : r2 = rule := by simpa using hr2
  rw [h1, h2]

lemma selectRules_pairSafe (attempts : List Attempt) (targetMin targetMax : ℚ) :
    PairSafe getIncompatiblePairs (selectRules attempts targetMin targetMax) := by
  induction attempts with
  | nil =>
    have hfb : fallbackRules = [ruleSumEven] := rfl
    rw [selectRules, hfb]
    exact pairSafe_singleton getIncompatiblePairs ruleSumEven
  | cons attempt rest ih =>
    simp only [selectRules]
    split_ifs with h
    · exact selectLoop_pairSafe getIncompatiblePairs attempt.numRules attempt.shuffled []
        (pairSafe_nil getIncompatiblePairs)
    · exact ih

/-- C6: no rule set returned by `selectRules` contains both members of a
declared contradictory pair. -/
theorem selectRules_no_contradictory_pair
    (attempts : List Attempt) (targetMin targetMax : ℚ)
    (pair : List String) (hpair : pair ∈ getIncompatiblePairs)
    (a : String) (ha : a ∈ pair) (b : String) (hb : b ∈ pair) (hab : a ≠ b) :
    ¬(((selectRules attempts targetMin targetMax).any fun r => r.id == a) = true ∧
      ((selectRules attempts targetMin targetMax).any fun r => r.id == b) = true) := by
  intro hcon
  obtain ⟨r1, hr1, hr1a⟩ := List.any_eq_true.mp hcon.1
  obtain ⟨r2, hr2, hr2b⟩ := List.any_eq_true.mp hcon.2
  have hr1a' : r1.id = a := by simpa using hr1a
  have hr2b' : r2.id = b := by simpa using hr2b
  have hsafe := selectRules_pairSafe attempts targetMin targetMax pair hpair r1 hr1 r2 hr2
  apply hab
  rw [← hr1a', ← hr2b']
  apply hsafe
  · rw [hr1a']
    exact List.elem_eq_true_of_mem ha
  · rw [hr2b']
    exact List.elem_eq_true_of_mem hb

theorem selectRules_no_contradictory_pair_witness :
    ¬((fallbackRules.any fun r => r.id == "even_row") = true ∧
      (fallbackRules.any fun r => r.id == "odd_row") = true) := by
  have hfb : fallbackRules = selectRules [] ((1 : ℚ) / 4) ((1 : ℚ) / 2) := rfl
  rw [hfb]
  exact selectRules_no_contradictory_pair [] ((1 : ℚ) / 4) ((1 : ℚ) / 2)
    ["even_row", "odd_row"] (by decide) "even_row" (by decide) "odd_row" (by decide) (by decide)

/-- C3: a confirmed placement attempt is rejected with the whole game state
unchanged (in particular no move record appended) whenever the game is over,
the target cell is occupied, or the acting player has no stones left. -/
theorem attemptPlacement_precondition_rejects
    (s : GameState) (row col orientation : Nat)
    (h : s.gameOver = true ∨ (boardCell s.board row col).isSome = true ∨
      getCurrentStones s = 0) :
    attemptPlacement s row col orientation = s := by
  unfold attemptPlacement
  split_ifs with h1 h2 h3
  · rfl
  · rfl
  · rfl
  · rcases h with h | h | h
    · exact absurd h h1
    · exact absurd h h2
    · exact absurd (le_of_eq h) h3

/-- A finished duel game, used to instantiate the precondition theorem. -/
def finishedDuelState : GameState :=
  { initialState Mode.duel [ruleSumEven] with
      gameOver := true, winner := some 2, player2Stones := 0 }

theorem attemptPlacement_precondition_rejects_witness :
    attemptPlacement finishedDuelState 0 1 0 = finishedDuelState :=
  attemptPlacement_precondition_rejects finishedDuelState 0 1 0 (Or.inl rfl)

/-- A duel game one legal move from the end: player 1 is about to place the
last stone. -/
def duelLastStoneState : GameState :=
  { initialState Mode.duel [ruleSumEven] with player1Stones := 1 }

/-- C2: the code violates the claimed game-over exception. In duel mode, a
legal placement of player 1's last stone transitions the game to over with
winner 1, yet the current player still switches to 2: the `!gameOver` guard
of the switch reads the stale pre-update `gameOver` (always false at that
point), so in duel mode the player switches after every confirmed attempt,
including the one that just ended the game. -/
theorem duel_player_switches_on_gameover_attempt :
    duelLastStoneState.mode = Mode.duel ∧
    duelLastStoneState.currentPlayer = 1 ∧
    duelLastStoneState.gameOver = false ∧
    (attemptPlacement duelLastStoneState 0 1 0).gameOver = true ∧
    (attemptPlacement duelLastStoneState 0 1 0).winner = some 1 ∧
    (attemptPlacement duelLastStoneState 0 1 0).currentPlayer = 2 :=
  ⟨rfl, rfl, rfl, rfl, rfl, rfl⟩

lemma jsMapIdxFrom_get? (f : Nat → α → β) :
    ∀ (l : List α) (i j : Nat),
      (jsMapIdxFrom f i l).get? j = (l.get? j).map fun a => f (i + j) a := by
  intro l
  induction l with
  | nil => intro i j; simp [jsMapIdxFrom]
  | cons a rest ih =>
    intro i j
    cases j with
    | zero => simp [jsMapIdxFrom]
    | succ j =>
      have harith : i + 1 + j = i + (j + 1) := by omega
      rw [jsMapIdxFrom, List.get?_cons_succ, List.get?_cons_succ, ih (i + 1) j, harith]

lemma jsMapIdx_get? (f : Nat → α → β) (l : List α) (j : Nat) :
    (jsMapIdx f l).get? j = (l.get? j).map fun a => f j a := by
  have := jsMapIdxFrom_get? f l 0 j
  simpa [jsMapIdx] using this

/-- A board of the game always has 9 rows of 9 cells. -/
def boardIs9x9 (board : BoardState) : Prop :=
  board.length = 9 ∧ ∀ cells ∈ board, cells.length = 9

lemma boardCell_placeStone_other (board : BoardState) (row col orientation r c : Nat)
    (hne : ¬(r = row ∧ c = col)) :
    boardCell (placeStone board row col orientation) r c = boardCell board r c := by
  unfold boardCell placeStone
  rw [jsMapIdx_get?]
  cases hrow : board.get? r with
  | none => simp
  | some cells =>
    simp only [Option.map_some', Option.some_bind]
    rw [jsMapIdx_get?]
    cases hcol : cells.get? c with
    | none => simp
    | some cell => simp [hne]

lemma boardCell_placeStone_self (board : BoardState) (row col orientation : Nat)
    (h9 : boardIs9x9 board) (hrow : row < 9) (hcol : col < 9) :
    boardCell (placeStone board row col orientation) row col = some orientation := by
  obtain ⟨hlen, hall⟩ := h9
  have hrow' : row < board.length := by omega
  have hcells := List.get?_eq_get hrow'
  set cells := board.get ⟨row, hrow'⟩ with hcdef
  have hmem : cells ∈ board := board.get_mem _ _
  have hclen : cells.length = 9 := hall cells hmem
  have hcol' : col < cells.length := by omega
  have hcell := List.get?_eq_get hcol'
  unfold boardCell placeStone
  rw [jsMapIdx_get?, hcells]
  simp only [Option.map_some', Option.some_bind]
  rw [jsMapIdx_get?, hcell]
  simp

/-- C4: on an in-progress game, at an empty in-range cell, with the acting
player holding stones: a legal confirmed placement changes exactly that cell
from empty to a stone of the requested orientation and decrements exactly the
acting player's stone counter by one; an illegal one changes no cell and no
stone counter. -/
theorem attemptPlacement_frame (s : GameState) (row col orientation : Nat)
    (h9 : boardIs9x9 s.board) (hrow : row < 9) (hcol : col < 9)
    (hover : s.gameOver = false)
    (hempty : boardCell s.board row col = none)
    (hstones : 0 < getCurrentStones s) :
    (isMoveLegal row col orientation s.rules s.board = true →
      boardCell (attemptPlacement s row col orientation).board row col = some orientation ∧
      (∀ r c : Nat, ¬(r = row ∧ c = col) →
        boardCell (attemptPlacement s row col orientation).board r c = boardCell s.board r c) ∧
      (s.currentPlayer = 1 →
        (attemptPlacement s row col orientation).player1Stones = s.player1Stones - 1 ∧
        (attemptPlacement s row col orientation).player2Stones = s.player2Stones) ∧
      (s.currentPlayer ≠ 1 →
        (attemptPlacement s row col orientation).player2Stones = s.player2Stones - 1 ∧
        (attemptPlacement s row col orientation).player1Stones = s.player1Stones)) ∧
    (isMoveLegal row col orientation s.rules s.board = false →
      (attemptPlacement s row col orientation).board = s.board ∧
      (attemptPlacement s row col orientation).player1Stones = s.player1Stones ∧
      (attemptPlacement s row col orientation).player2Stones = s.player2Stones) := by
  have hred : attemptPlacement s row col orientation = confirmPlacement s row col orientation := by
    unfold attemptPlacement
    rw [if_neg (by rw [hover]; exact Bool.false_ne_true),
      if_neg (by rw [hempty]; exact Bool.false_ne_true),
      if_neg (not_le.mpr hstones)]
  rw [hred]
  constructor
  · intro hleg
    have hb : (confirmPlacement s row col orientation).board =
        placeStone s.board row col orientation := by
      by_cases hp : s.currentPlayer = 1 <;> simp [confirmPlacement, hleg, hp]
    by_cases hp : s.currentPlayer = 1
    · have h1 : (confirmPlacement s row col orientation).player1Stones =
          s.player1Stones - 1 := by simp [confirmPlacement, hleg, hp]
      have h2 : (confirmPlacement s row col orientation).player2Stones =
          s.player2Stones := by simp [confirmPlacement, hleg, hp]
      refine ⟨?_, ?_, fun _ => ⟨h1, h2⟩, fun hne => absurd hp hne⟩
      · rw [hb]
        exact boardCell_placeStone_self s.board row col orientation h9 hrow hcol
      · intro r c hne
        rw [hb]
        exact boardCell_placeStone_other s.board row col orientation r c hne
    · have h1 : (confirmPlacement s row col orientation).player1Stones =
          s.player1Stones := by simp [confirmPlacement, hleg, hp]
      have h2 : (confirmPlacement s row col orientation).player2Stones =
          s.player2Stones - 1 := by simp [confirmPlacement, hleg, hp]
      refine ⟨?_, ?_, fun hp1 => absurd hp1 hp, fun _ => ⟨h2, h1⟩⟩
      · rw [hb]
        exact boardCell_placeStone_self s.board row col orientation h9 hrow hcol
      · intro r c hne
        rw [hb]
        exact boardCell_placeStone_other s.board row col orientation r c hne
  · intro hleg
    refine ⟨?_, ?_, ?_⟩ <;>
      by_cases hp : s.currentPlayer = 1 <;> simp [confirmPlacement, hleg, hp]

theorem attemptPlacement_frame_witness :
    (isMoveLegal 0 1 2 (initialState Mode.solo [ruleSumEven]).rules
        (initialState Mode.solo [ruleSumEven]).board = true →
      boardCell (attemptPlacement (initialState Mode.solo [ruleSumEven]) 0 1 2).board 0 1 =
        some 2 ∧
      (∀ r c : Nat, ¬(r = 0 ∧ c = 1) →
        boardCell (attemptPlacement (initialState Mode.solo [ruleSumEven]) 0 1 2).board r c =
          boardCell (initialState Mode.solo [ruleSumEven]).board r c) ∧
      ((initialState Mode.solo [ruleSumEven]).currentPlayer = 1 →
        (attemptPlacement (initialState Mode.solo [ruleSumEven]) 0 1 2).player1Stones =
          (initialState Mode.solo [ruleSumEven]).player1Stones - 1 ∧
        (attemptPlacement (initialState Mode.solo [ruleSumEven]) 0 1 2).player2Stones =
          (initialState Mode.solo [ruleSumEven]).player2Stones) ∧
      ((initialState Mode.solo [ruleSumEven]).currentPlayer ≠ 1 →
        (attemptPlacement (initialState Mode.solo [ruleSumEven]) 0 1 2).player2Stones =
          (initialState Mode.solo [ruleSumEven]).player2Stones - 1 ∧
        (attemptPlacement (initialState Mode.solo [ruleSumEven]) 0 1 2).player1Stones =
          (initialState Mode.solo [ruleSumEven]).player1Stones)) ∧
    (isMoveLegal 0 1 2 (initialState Mode.solo [ruleSumEven]).rules
        (initialState Mode.solo [ruleSumEven]).board = false →
      (attemptPlacement (initialState Mode.solo [ruleSumEven]) 0 1 2).board =
        (initialState Mode.solo [ruleSumEven]).board ∧
      (attemptPlacement (initialState Mode.solo [ruleSumEven]) 0 1 2).player1Stones =
        (initialState Mode.solo [ruleSumEven]).player1Stones ∧
      (attemptPlacement (initialState Mode.solo [ruleSumEven]) 0 1 2).player2Stones =
        (initialState Mode.solo [ruleSumEven]).player2Stones) :=
  attemptPlacement_frame (initialState Mode.solo [ruleSumEven]) 0 1 2
    (by unfold boardIs9x9; decide) (by decide) (by decide) rfl (by decide) (by decide)

/-- Stone-counter bookkeeping invariant: while in progress both players hold
stones and no winner is set; once over, the winner is recorded and is exactly
the player whose counter is 0, the other player still holding stones. -/
def StonesInvariant (s : GameState) : Prop :=
  (s.gameOver = false → s.winner = none ∧ 0 < s.player1Stones ∧ 0 < s.player2Stones) ∧
  (s.gameOver = true →
    (s.winner = some 1 ∧ s.player1Stones = 0 ∧ 0 < s.player2Stones) ∨
    (s.winner = some 2 ∧ s.player2Stones = 0 ∧ 0 < s.player1Stones))

lemma stonesInvariant_init (mode : Mode) (rules : List Rule) :
    StonesInvariant (initialState mode rules) := by
  constructor
  · intro _
    refine ⟨rfl, ?_, ?_⟩ <;>
      cases mode <;>
        simp [initialState, initialStones, SOLO_STONES, DUEL_STONES]
  · intro hcontra
    exact absurd hcontra (by simp [initialState])

lemma stonesInvariant_step (s : GameState) (row col orientation : Nat)
    (h : StonesInvariant s) :
    StonesInvariant (attemptPlacement s row col orientation) := by
  unfold attemptPlacement
  split_ifs with h1 h2 h3
  · exact h
  · exact h
  · exact h
  · have hover : s.gameOver = false := by
      revert h1
      cases s.gameOver <;> simp
    obtain ⟨hip, _⟩ := h
    obtain ⟨hw, hp1, hp2⟩ := hip hover
    unfold confirmPlacement
    by_cases hleg : isMoveLegal row col orientation s.rules s.board = true
    · rw [if_pos hleg]
      by_cases hp : s.currentPlayer = 1
      · rw [if_pos hp]
        by_cases hz : s.player1Stones - 1 = 0
        · refine ⟨fun hg => ?_, fun _ => Or.inl ⟨?_, ?_, ?_⟩⟩
          · simp only [hz, if_pos] at hg
            exact absurd hg (by simp)
          · simp [hz]
          · simp [hz]
          · simpa using hp2
        · refine ⟨fun _ => ⟨?_, ?_, ?_⟩, fun hg => ?_⟩
          · simp [hz, hw, hover]
          · simp only []
            omega
          · simpa using hp2
          · simp only [hz, if_neg, if_false, hover] at hg
            exact absurd hg (by simp)
      · rw [if_neg hp]
        by_cases hz : s.player2Stones - 1 = 0
        · refine ⟨fun hg => ?_, fun _ => Or.inr ⟨?_, ?_, ?_⟩⟩
          · simp only [hz, if_pos] at hg
            exact absurd hg (by simp)
          · simp [hz]
          · simp [hz]
          · simpa using hp1
        · refine ⟨fun _ => ⟨?_, ?_, ?_⟩, fun hg => ?_⟩
          · simp [hz, hw, hover]
          · simpa using hp1
          · simp only []
            omega
          · simp only [hz, if_neg, if_false, hover] at hg
            exact absurd hg (by simp)
    · rw [if_neg hleg]
      refine ⟨fun _ => ⟨?_, ?_, ?_⟩, fun hg => ?_⟩
      · simpa using hw
      · simpa using hp1
      · simpa using hp2
      · rw [show ({ s with
            moveHistory := s.moveHistory ++
              [{ row := row, col := col, orientation := orientation,
                 player := s.currentPlayer,
                 legal := isMoveLegal row col orientation s.rules s.board }]
            player1Moves := if s.currentPlayer = 1 then s.player1Moves + 1 else s.player1Moves
            player2Moves := if s.currentPlayer = 1 then s.player2Moves else s.player2Moves + 1
            currentPlayer := if s.mode = Mode.duel then switchPlayer s.currentPlayer
              else s.currentPlayer } : GameState).gameOver = s.gameOver from rfl] at hg
        exact absurd (hover.symm.trans hg) (by simp)

lemma stonesInvariant_reachable (s : GameState) (h : Reachable s) :
    StonesInvariant s := by
  induction h with
  | init mode rules => exact stonesInvariant_init mode rules
  | step s row col orientation _ ih => exact stonesInvariant_step s row col orientation ih

/-- C5: in every reachable state the game is over exactly when some stone
counter is 0, and then the winner is the player whose counter hit 0 (the
other player still holds stones). -/
theorem reachable_gameOver_iff_stones_exhausted (s : GameState) (h : Reachable s) :
    (s.gameOver = true ↔ s.player1Stones = 0 ∨ s.player2Stones = 0) ∧
    (s.gameOver = true →
      ∃ w, s.winner = some w ∧
        ((w = 1 ∧ s.player1Stones = 0 ∧ s.player2Stones ≠ 0) ∨
         (w = 2 ∧ s.player2Stones = 0 ∧ s.player1Stones ≠ 0))) := by
  obtain ⟨hip, hgo⟩ := stonesInvariant_reachable s h
  constructor
  · constructor
    · intro hg
      rcases hgo hg with ⟨_, hz, _⟩ | ⟨_, hz, _⟩
      · exact Or.inl hz
      · exact Or.inr hz
    · intro hz
      by_contra hng
      have hfalse : s.gameOver = false := by
        revert hng
        cases s.gameOver <;> simp
      obtain ⟨_, hq1, hq2⟩ := hip hfalse
      rcases hz with hz | hz <;> omega
  · intro hg
    rcases hgo hg with ⟨hwin, hz, hpos⟩ | ⟨hwin, hz, hpos⟩
    · exact ⟨1, hwin, Or.inl ⟨rfl, hz, by omega⟩⟩
    · exact ⟨2, hwin, Or.inr ⟨rfl, hz, by omega⟩⟩

theorem reachable_gameOver_iff_stones_exhausted_witness :
    ((initialState Mode.solo fallbackRules).gameOver = true ↔
      (initialState Mode.solo fallbackRules).player1Stones = 0 ∨
      (initialState Mode.solo fallbackRules).player2Stones = 0) ∧
    ((initialState Mode.solo fallbackRules).gameOver = true →
      ∃ w, (initialState Mode.solo fallbackRules).winner = some w ∧
        ((w = 1 ∧ (initialState Mode.solo fallbackRules).player1Stones = 0 ∧
            (initialState Mode.solo fallbackRules).player2Stones ≠ 0) ∨
         (w = 2 ∧ (initialState Mode.solo fallbackRules).player2Stones = 0 ∧
            (initialState Mode.solo fallbackRules).player1Stones ≠ 0))) :=
  reachable_gameOver_iff_stones_exhausted (initialState Mode.solo fallbackRules)
    (Reachable.init Mode.solo fallbackRules)
